import Mathlib

/-!
Shallow embedding of the apigo geocoding service core
(package `internal/geocode`: `Service.Geocode`, `normalizeAddress` and the
TTL `cache`), together with the error classification performed by
`internal/server/router.go`.

Modelling conventions:
* Go strings are lists of characters (`GoString`).
* `float64` coordinate values are only ever copied by the code, never
  computed with, so they are carried as rationals.
* Wall-clock instants (`time.Time`) are natural numbers; `time.Now()` is
  passed in as an explicit `now` argument, and `t.After(u)` is `u < t`.
* The Go `map[string]cacheItem` inside the cache is a function
  `GoString → Option cacheItem`; mutation becomes state passing.
* The single upstream HTTP exchange of one `Geocode` call is passed in as
  an `UpstreamOutcome` value describing what the network did; the output
  records how many upstream requests were issued (`upstreamCalls`) and how
  many cache lookups were performed (`cacheLookups`).
* The per-character case mapping and whitespace test of Go
  (`unicode.ToLower`, `unicode.IsSpace`) are embedded on their ASCII
  range, which covers every input appearing in the development.
-/

namespace Apigo

/-- Go strings, modelled as lists of characters. -/
abbrev GoString := List Char

/-- Whitespace test of Go `unicode.IsSpace` on the ASCII range:
space, tab, newline, vertical tab, form feed, carriage return. -/
def isSpaceChar (c : Char) : Bool :=
  decide (c.toNat = 32 ∨ c.toNat = 9 ∨ c.toNat = 10 ∨
    c.toNat = 11 ∨ c.toNat = 12 ∨ c.toNat = 13)

/-- Go `strings.TrimSpace`: drop whitespace from both ends of the string. -/
def trimSpace (s : GoString) : GoString :=
  List.rdropWhile isSpaceChar (List.dropWhile isSpaceChar s)

/-- `normalizeAddress` from `internal/geocode`:
`strings.TrimSpace(strings.ToLower(address))`.  The per-character lowercase
map is `Char.toLower` (ASCII range). -/
def normalizeAddress (address : GoString) : GoString :=
  trimSpace (address.map Char.toLower)

/-- `Result` represents a successful geocoding response
(fields `Address`, `Latitude`, `Longitude`, `Source`). -/
structure Result where
  address : GoString
  latitude : Rat
  longitude : Rat
  source : GoString
deriving DecidableEq

/-- The Go zero value `Result{}`. -/
def Result.zero : Result :=
  { address := [], latitude := 0, longitude := 0, source := [] }

/-- A cache entry: `{value Result; expires time.Time}`. -/
structure cacheItem where
  value : Result
  expires : Nat
deriving DecidableEq

/-- The in-memory TTL cache; `items` is the Go `map[string]cacheItem`
(`none` = key absent).  The mutex only serialises access and has no
sequential semantics, so it is not modelled. -/
structure cache where
  ttl : Nat
  items : GoString → Option cacheItem

/-- `newCache(ttl)`: empty map. -/
def newCache (ttl : Nat) : cache :=
  { ttl := ttl, items := fun _ => none }

/-- `cache.Get`: the returned pair `(Result, bool)` of the Go method plus
the possibly mutated map (lazy deletion of an expired entry).
`time.Now().After(item.expires)` is `item.expires < now`. -/
def cache.Get (c : cache) (now : Nat) (key : GoString) : Result × Bool × cache :=
  match c.items key with
  | none => (Result.zero, false, c)
  | some item =>
    if item.expires < now then
      (Result.zero, false,
        { c with items := fun k => if k = key then none else c.items k })
    else
      (item.value, true, c)

/-- `cache.Set`: store `value` with `expires = time.Now().Add(c.ttl)`,
overwriting any existing entry for `key`. -/
def cache.Set (c : cache) (now : Nat) (key : GoString) (value : Result) : cache :=
  { c with
    items := fun k =>
      if k = key then some { value := value, expires := now + c.ttl } else c.items k }

/-- Nested `geometry.location` object of the upstream JSON payload. -/
structure Location where
  lat : Rat
  lng : Rat
deriving DecidableEq

/-- Nested `geometry` object of the upstream JSON payload. -/
structure Geometry where
  location : Location
deriving DecidableEq

/-- One element of the `results` list of the upstream JSON payload. -/
structure GeoResult where
  formatted_address : GoString
  geometry : Geometry
deriving DecidableEq

/-- `geocodeResponse`: the subset of the Google Geocoding API response that
the service decodes. -/
structure geocodeResponse where
  results : List GeoResult
  status : GoString
  error_message : GoString
deriving DecidableEq

/-- Errors that `s.client.Do` can return.  When the request context is
canceled or its deadline has been exceeded, the returned error wraps
`context.Canceled` resp. `context.DeadlineExceeded` and is recognised by
`errors.Is`; any other transport failure carries its own message. -/
inductive TransportErr where
  | deadlineExceeded
  | canceled
  | netFailure (msg : GoString)
deriving DecidableEq

/-- What the single upstream HTTP exchange of one `Geocode` call did. -/
inductive UpstreamOutcome where
  | reqErr (msg : GoString)
  | doErr (e : TransportErr)
  | response (statusCode : Nat) (body : Option geocodeResponse)
deriving DecidableEq

/-- The errors `Service.Geocode` can return, one constructor per `return`
site; `fmt.Errorf` messages are carried structurally. -/
inductive GoError where
  | addressRequired
  | noResults
  | reqBuildErr (msg : GoString)
  | transport (e : TransportErr)
  | httpStatus (code : Nat)
  | decodeErr
  | apiError (msg : GoString)
  | apiStatus (status : GoString)
deriving DecidableEq

/-- `Service` performs geocoding requests; the cache state is passed
explicitly to `Geocode` instead of living behind a pointer. -/
structure Service where
  apiKey : GoString

/-- The observable outcome of one `Geocode` call: the returned
`(Result, error)` pair, the cache state afterwards, and counters for the
upstream requests issued and cache lookups performed during the call. -/
structure GeocodeOut where
  result : Result
  err : Option GoError
  cacheOut : cache
  upstreamCalls : Nat
  cacheLookups : Nat

/-- `Service.Geocode`, translated branch by branch from the Go source.
`reqErr` happens before the request is sent (`upstreamCalls = 0`); every
other upstream outcome corresponds to one issued request. -/
def Service.Geocode (s : Service) (c : cache) (now : Nat) (rawAddress : GoString)
    (upstream : UpstreamOutcome) : GeocodeOut :=
  if normalizeAddress rawAddress = [] then
    { result := Result.zero, err := some GoError.addressRequired,
      cacheOut := c, upstreamCalls := 0, cacheLookups := 0 }
  else
    match cache.Get c now (normalizeAddress rawAddress) with
    | (result, true, c1) =>
      { result := { result with source := "cache".data }, err := none,
        cacheOut := c1, upstreamCalls := 0, cacheLookups := 1 }
    | (_, false, c1) =>
      match upstream with
      | UpstreamOutcome.reqErr msg =>
        { result := Result.zero, err := some (GoError.reqBuildErr msg),
          cacheOut := c1, upstreamCalls := 0, cacheLookups := 1 }
      | UpstreamOutcome.doErr e =>
        { result := Result.zero, err := some (GoError.transport e),
          cacheOut := c1, upstreamCalls := 1, cacheLookups := 1 }
      | UpstreamOutcome.response statusCode body =>
        if statusCode ≠ 200 then
          { result := Result.zero, err := some (GoError.httpStatus statusCode),
            cacheOut := c1, upstreamCalls := 1, cacheLookups := 1 }
        else
          match body with
          | none =>
            { result := Result.zero, err := some GoError.decodeErr,
              cacheOut := c1, upstreamCalls := 1, cacheLookups := 1 }
          | some payload =>
            if payload.status ≠ "OK".data then
              if payload.error_message ≠ [] then
                { result := Result.zero, err := some (GoError.apiError payload.error_message),
                  cacheOut := c1, upstreamCalls := 1, cacheLookups := 1 }
              else
                { result := Result.zero, err := some (GoError.apiStatus payload.status),
                  cacheOut := c1, upstreamCalls := 1, cacheLookups := 1 }
            else
              match payload.results with
              | [] =>
                { result := Result.zero, err := some GoError.noResults,
                  cacheOut := c1, upstreamCalls := 1, cacheLookups := 1 }
              | top :: _ =>
                { result :=
                    { address := top.formatted_address,
                      latitude := top.geometry.location.lat,
                      longitude := top.geometry.location.lng,
                      source := "google".data },
                  err := none,
                  cacheOut :=
                    cache.Set c1 now (normalizeAddress rawAddress)
                      { address := top.formatted_address,
                        latitude := top.geometry.location.lat,
                        longitude := top.geometry.location.lng,
                        source := "google".data },
                  upstreamCalls := 1, cacheLookups := 1 }

/-- Error classification of `internal/server/router.go`:
`errors.Is(err, context.DeadlineExceeded) || errors.Is(err, context.Canceled)`,
mapped to the 504 branch. -/
def isTimeoutOrCanceled (e : GoError) : Bool :=
  match e with
  | GoError.transport TransportErr.deadlineExceeded => true
  | GoError.transport TransportErr.canceled => true
  | _ => false

/-- The specification error taxonomy's "UpstreamError" class: an error
that is neither the local `AddressRequired`, nor `NoResults`, nor the
`Timeout`/`Canceled` kind — exactly the errors the router maps to its
default 502 branch among upstream-originated failures. -/
def isGenericUpstream (e : GoError) : Bool :=
  !(e == GoError.addressRequired) && !(e == GoError.noResults) && !(isTimeoutOrCanceled e)

/-! ### Concrete instances used for evaluations -/

/-- A concrete service value. -/
def exampleService : Service :=
  { apiKey := "key".data }

/-- A concrete first upstream result (integral coordinates). -/
def exampleTop : GeoResult :=
  { formatted_address := "1 Infinite Loop".data,
    geometry := { location := { lat := 37, lng := -122 } } }

/-- A concrete "OK" upstream payload with exactly one result. -/
def examplePayload : geocodeResponse :=
  { results := [exampleTop], status := "OK".data, error_message := [] }

/-- A concrete "OK" upstream payload with an empty result list. -/
def exampleEmptyPayload : geocodeResponse :=
  { results := [], status := "OK".data, error_message := [] }

/-- A concrete non-"OK" upstream payload carrying an error message. -/
def exampleDeniedPayload : geocodeResponse :=
  { results := [], status := "REQUEST_DENIED".data, error_message := "denied".data }

/-- A concrete stored result value. -/
def exampleStored : Result :=
  { address := "Main St".data, latitude := 37, longitude := -122,
    source := "google".data }

/-- A concrete cache holding one entry for key "main st" expiring at 100. -/
def exampleHitCache : cache :=
  { ttl := 1800,
    items := fun k =>
      if k = "main st".data then some { value := exampleStored, expires := 100 }
      else none }

/-- A concrete cache holding one entry for key "main st" expiring at 10. -/
def exampleExpiredCache : cache :=
  { ttl := 1800,
    items := fun k =>
      if k = "main st".data then some { value := exampleStored, expires := 10 }
      else none }

/-! ### Character-level lemmas about the lowercase map and the whitespace test -/

theorem char_toNat_ofNat {n : Nat} (h : n < 55296) : (Char.ofNat n).toNat = n := by
  unfold Char.ofNat
  rw [dif_pos (Or.inl h)]
  rfl

theorem toLower_eq_self {c : Char} (h : ¬(65 ≤ c.toNat ∧ c.toNat ≤ 90)) :
    Char.toLower c = c := by
  simp only [Char.toLower, ge_iff_le]
  rw [if_neg h]

theorem toLower_toNat_of_upper {c : Char} (h1 : 65 ≤ c.toNat) (h2 : c.toNat ≤ 90) :
    (Char.toLower c).toNat = c.toNat + 32 := by
  simp only [Char.toLower, ge_iff_le]
  rw [if_pos ⟨h1, h2⟩]
  exact char_toNat_ofNat (by omega)

theorem toLower_idem (c : Char) : Char.toLower (Char.toLower c) = Char.toLower c := by
  by_cases h : 65 ≤ c.toNat ∧ c.toNat ≤ 90
  · apply toLower_eq_self
    rw [toLower_toNat_of_upper h.1 h.2]
    omega
  · rw [toLower_eq_self h, toLower_eq_self h]

theorem isSpaceChar_toLower (c : Char) :
    isSpaceChar (Char.toLower c) = isSpaceChar c := by
  by_cases h : 65 ≤ c.toNat ∧ c.toNat ≤ 90
  · have ht := toLower_toNat_of_upper h.1 h.2
    have hl : isSpaceChar (Char.toLower c) = false := by
      simp only [isSpaceChar, decide_eq_false_iff_not, ht]
      omega
    have hr : isSpaceChar c = false := by
      simp only [isSpaceChar, decide_eq_false_iff_not]
      omega
    rw [hl, hr]
  · rw [toLower_eq_self h]

/-! ### List-level lemmas about trimming and lowercasing -/

theorem map_toLower_idem (l : GoString) :
    (l.map Char.toLower).map Char.toLower = l.map Char.toLower := by
  rw [List.map_map]
  exact List.map_congr_left fun a _ => toLower_idem a

theorem dropWhile_space_map_toLower (l : GoString) :
    (l.map Char.toLower).dropWhile isSpaceChar =
      (l.dropWhile isSpaceChar).map Char.toLower := by
  rw [List.dropWhile_map,
    show (isSpaceChar ∘ Char.toLower) = isSpaceChar from funext isSpaceChar_toLower]

theorem rdropWhile_space_map_toLower (l : GoString) :
    List.rdropWhile isSpaceChar (l.map Char.toLower) =
      (List.rdropWhile isSpaceChar l).map Char.toLower := by
  simp only [List.rdropWhile]
  rw [← List.map_reverse, dropWhile_space_map_toLower, ← List.map_reverse]

theorem trimSpace_map_toLower (l : GoString) :
    trimSpace (l.map Char.toLower) = (trimSpace l).map Char.toLower := by
  unfold trimSpace
  rw [dropWhile_space_map_toLower, rdropWhile_space_map_toLower]

theorem dropWhile_rdropWhile_self {α : Type} (p : α → Bool) (y : List α)
    (hy : y.dropWhile p = y) :
    (y.rdropWhile p).dropWhile p = y.rdropWhile p := by
  obtain ⟨t, ht⟩ := List.rdropWhile_prefix p y
  cases hz : y.rdropWhile p with
  | nil => simp
  | cons a z =>
    have hy2 : y = a :: (z ++ t) := by
      rw [← ht, hz, List.cons_append]
    rw [hy2] at hy
    have h0 := List.dropWhile_eq_self_iff.mp hy (by simp)
    have hpa : ¬ p a = true := by simpa using h0
    rw [List.dropWhile_cons_of_neg hpa]

theorem trimSpace_idem (l : GoString) : trimSpace (trimSpace l) = trimSpace l := by
  unfold trimSpace
  rw [dropWhile_rdropWhile_self isSpaceChar (l.dropWhile isSpaceChar)
    (List.dropWhile_idempotent _ _), List.rdropWhile_idempotent]

theorem rdropWhile_append_all {α : Type} (p : α → Bool) (y v : List α)
    (hv : ∀ x ∈ v, p x = true) :
    List.rdropWhile p (y ++ v) = List.rdropWhile p y := by
  simp only [List.rdropWhile, List.reverse_append]
  rw [List.dropWhile_append_of_pos (fun x hx => hv x (List.mem_reverse.mp hx))]

theorem trimSpace_pad (u x v : GoString)
    (hu : ∀ ch ∈ u, isSpaceChar ch = true) (hv : ∀ ch ∈ v, isSpaceChar ch = true) :
    trimSpace (u ++ x ++ v) = trimSpace x := by
  unfold trimSpace
  rw [List.append_assoc, List.dropWhile_append_of_pos hu, List.dropWhile_append]
  by_cases hx : x.dropWhile isSpaceChar = []
  · simp [hx, List.dropWhile_eq_nil_iff.mpr hv]
  · rw [if_neg (by simpa using hx)]
    exact rdropWhile_append_all _ _ _ hv

theorem normalizeAddress_idem_aux (s : GoString) :
    normalizeAddress (normalizeAddress s) = normalizeAddress s := by
  unfold normalizeAddress
  rw [← trimSpace_map_toLower, map_toLower_idem, trimSpace_idem]

theorem all_space_map_toLower {w : GoString} (hw : ∀ ch ∈ w, isSpaceChar ch = true) :
    ∀ ch ∈ w.map Char.toLower, isSpaceChar ch = true := by
  intro ch hch
  obtain ⟨c, hc, rfl⟩ := List.mem_map.mp hch
  rw [isSpaceChar_toLower]
  exact hw c hc

/-! ### Reduction lemmas for the cache operations -/

theorem cache.Get_none {c : cache} {now : Nat} {key : GoString}
    (h : c.items key = none) :
    c.Get now key = (Result.zero, false, c) := by
  unfold cache.Get
  rw [h]

theorem cache.Get_fresh {c : cache} {now : Nat} {key : GoString} {item : cacheItem}
    (h : c.items key = some item) (hf : ¬ item.expires < now) :
    c.Get now key = (item.value, true, c) := by
  unfold cache.Get
  rw [h]
  simp [hf]

theorem cache.Get_expired {c : cache} {now : Nat} {key : GoString} {item : cacheItem}
    (h : c.items key = some item) (he : item.expires < now) :
    c.Get now key =
      (Result.zero, false,
        { c with items := fun k => if k = key then none else c.items k }) := by
  unfold cache.Get
  rw [h]
  simp [he]

theorem cache.Set_items_self (c : cache) (now : Nat) (key : GoString) (v : Result) :
    (c.Set now key v).items key = some { value := v, expires := now + c.ttl } := by
  unfold cache.Set
  simp

/-! ### Claim theorems -/

/-- C4: normalization is idempotent, identifies " Foo ", "foo" and "FOO",
and any two raw inputs differing only by case or leading/trailing
whitespace produce the same normalized string (hence the same cache key). -/
theorem normalizeAddress_props :
    (∀ s : GoString, normalizeAddress (normalizeAddress s) = normalizeAddress s) ∧
    (normalizeAddress " Foo ".data = normalizeAddress "foo".data ∧
      normalizeAddress "foo".data = normalizeAddress "FOO".data) ∧
    (∀ w1 w2 w3 w4 s t : GoString,
      (∀ ch ∈ w1, isSpaceChar ch = true) → (∀ ch ∈ w2, isSpaceChar ch = true) →
      (∀ ch ∈ w3, isSpaceChar ch = true) → (∀ ch ∈ w4, isSpaceChar ch = true) →
      s.map Char.toLower = t.map Char.toLower →
      normalizeAddress (w1 ++ s ++ w2) = normalizeAddress (w3 ++ t ++ w4)) := by
  refine ⟨normalizeAddress_idem_aux, ⟨by decide, by decide⟩, ?_⟩
  intro w1 w2 w3 w4 s t h1 h2 h3 h4 hst
  unfold normalizeAddress
  rw [List.map_append, List.map_append,
    trimSpace_pad _ _ _ (all_space_map_toLower h1) (all_space_map_toLower h2),
    List.map_append, List.map_append,
    trimSpace_pad _ _ _ (all_space_map_toLower h3) (all_space_map_toLower h4),
    hst]

/-- C4 witness: "  MAIN st " and "Main St" normalize identically. -/
theorem normalizeAddress_props_witness :
    normalizeAddress ("  ".data ++ "MAIN st".data ++ " ".data) =
      normalizeAddress ([] ++ "Main St".data ++ []) :=
  normalizeAddress_props.2.2 "  ".data " ".data [] [] "MAIN st".data "Main St".data
    (by decide) (by decide) (by decide) (by decide) (by decide)

/-- C3: a raw address whose normalized form is empty fails immediately with
the AddressRequired error, with no cache lookup, no upstream call, and an
untouched cache. -/
theorem geocode_empty_address (s : Service) (c : cache) (now : Nat) (a : GoString)
    (u : UpstreamOutcome) (h : normalizeAddress a = []) :
    Service.Geocode s c now a u =
      { result := Result.zero, err := some GoError.addressRequired,
        cacheOut := c, upstreamCalls := 0, cacheLookups := 0 } := by
  unfold Service.Geocode
  rw [if_pos h]

/-- C3 witness: both "" and "   " are rejected without any lookup or call. -/
theorem geocode_empty_address_witness :
    (Service.Geocode exampleService (newCache 1800) 0 "".data (UpstreamOutcome.reqErr []) =
      { result := Result.zero, err := some GoError.addressRequired,
        cacheOut := newCache 1800, upstreamCalls := 0, cacheLookups := 0 }) ∧
    (Service.Geocode exampleService (newCache 1800) 0 "   ".data (UpstreamOutcome.reqErr []) =
      { result := Result.zero, err := some GoError.addressRequired,
        cacheOut := newCache 1800, upstreamCalls := 0, cacheLookups := 0 }) :=
  ⟨geocode_empty_address _ _ _ _ _ (by decide),
   geocode_empty_address _ _ _ _ _ (by decide)⟩

/-- C2: on a non-expired cache entry for the normalized address, Geocode
returns the stored Result with source "cache", leaves the cache unchanged,
and issues no upstream call. -/
theorem geocode_cache_hit (s : Service) (c : cache) (now : Nat) (a : GoString)
    (u : UpstreamOutcome) (item : cacheItem)
    (hne : normalizeAddress a ≠ [])
    (hit : c.items (normalizeAddress a) = some item)
    (hfresh : ¬ item.expires < now) :
    Service.Geocode s c now a u =
      { result := { item.value with source := "cache".data }, err := none,
        cacheOut := c, upstreamCalls := 0, cacheLookups := 1 } := by
  unfold Service.Geocode
  rw [if_neg hne, cache.Get_fresh hit hfresh]

/-- C2 witness: a cache entry stored under "main st" is served for the raw
address "  MAIN st " with source "cache" and zero upstream calls. -/
theorem geocode_cache_hit_witness :
    Service.Geocode exampleService exampleHitCache 50 "  MAIN st ".data
        (UpstreamOutcome.reqErr []) =
      { result := { exampleStored with source := "cache".data }, err := none,
        cacheOut := exampleHitCache, upstreamCalls := 0, cacheLookups := 1 } :=
  geocode_cache_hit _ _ _ _ _ { value := exampleStored, expires := 100 }
    (by decide) (by decide) (by decide)

/-- C5: Set followed by a Get before the TTL elapses returns the stored
value (source field included) with found = true; the write is an
unconditional overwrite setting expiry = now + TTL. -/
theorem cache_set_get_roundtrip (c : cache) (now now2 : Nat) (k : GoString) (v : Result)
    (h : now2 ≤ now + c.ttl) :
    (c.Set now k v).items k = some { value := v, expires := now + c.ttl } ∧
    (c.Set now k v).Get now2 k = (v, true, c.Set now k v) := by
  refine ⟨cache.Set_items_self c now k v, ?_⟩
  exact cache.Get_fresh (cache.Set_items_self c now k v)
    (by show ¬ now + c.ttl < now2; omega)

/-- C5 witness: round trip on a cache that already held an entry for the key. -/
theorem cache_set_get_roundtrip_witness :
    (exampleHitCache.Set 5 "main st".data Result.zero).items "main st".data =
      some { value := Result.zero, expires := 5 + exampleHitCache.ttl } ∧
    (exampleHitCache.Set 5 "main st".data Result.zero).Get 100 "main st".data =
      (Result.zero, true, exampleHitCache.Set 5 "main st".data Result.zero) :=
  cache_set_get_roundtrip exampleHitCache 5 100 "main st".data Result.zero (by decide)

/-- C6: Get returns (value, true) exactly for a present, non-expired entry;
otherwise it returns (zero, false); an expired entry is deleted on access
and a subsequent Get still returns false. -/
theorem cache_get_spec :
    (∀ (c : cache) (now : Nat) (k : GoString) (item : cacheItem),
      c.items k = some item → ¬ item.expires < now →
      c.Get now k = (item.value, true, c)) ∧
    (∀ (c : cache) (now : Nat) (k : GoString),
      c.items k = none → c.Get now k = (Result.zero, false, c)) ∧
    (∀ (c : cache) (now : Nat) (k : GoString) (item : cacheItem),
      c.items k = some item → item.expires < now →
      (c.Get now k).1 = Result.zero ∧ (c.Get now k).2.1 = false ∧
      (c.Get now k).2.2.items k = none ∧
      (∀ now2 : Nat, (c.Get now k).2.2.Get now2 k =
        (Result.zero, false, (c.Get now k).2.2))) ∧
    (∀ (c : cache) (now : Nat) (k : GoString),
      (c.Get now k).2.1 = true →
      ∃ item : cacheItem, c.items k = some item ∧ ¬ item.expires < now ∧
        (c.Get now k).1 = item.value) := by
  refine ⟨?_, ?_, ?_, ?_⟩
  · intro c now k item h hf
    exact cache.Get_fresh h hf
  · intro c now k h
    exact cache.Get_none h
  · intro c now k item h he
    rw [cache.Get_expired h he]
    refine ⟨rfl, rfl, by simp, ?_⟩
    intro now2
    apply cache.Get_none
    simp
  · intro c now k htrue
    cases hi : c.items k with
    | none =>
      rw [cache.Get_none hi] at htrue
      simp at htrue
    | some item =>
      by_cases he : item.expires < now
      · rw [cache.Get_expired hi he] at htrue
        simp at htrue
      · exact ⟨item, rfl, he, by rw [cache.Get_fresh hi he]⟩

/-- C6 witness: an entry expiring at 10 is not served at 11, is deleted on
that access, and a later Get at 12 still finds nothing. -/
theorem cache_get_spec_witness :
    (exampleExpiredCache.Get 11 "main st".data).1 = Result.zero ∧
    (exampleExpiredCache.Get 11 "main st".data).2.1 = false ∧
    (exampleExpiredCache.Get 11 "main st".data).2.2.items "main st".data = none ∧
    (exampleExpiredCache.Get 11 "main st".data).2.2.Get 12 "main st".data =
      (Result.zero, false, (exampleExpiredCache.Get 11 "main st".data).2.2) :=
  ⟨(cache_get_spec.2.2.1 exampleExpiredCache 11 "main st".data
      { value := exampleStored, expires := 10 } (by decide) (by decide)).1,
   (cache_get_spec.2.2.1 exampleExpiredCache 11 "main st".data
      { value := exampleStored, expires := 10 } (by decide) (by decide)).2.1,
   (cache_get_spec.2.2.1 exampleExpiredCache 11 "main st".data
      { value := exampleStored, expires := 10 } (by decide) (by decide)).2.2.1,
   (cache_get_spec.2.2.1 exampleExpiredCache 11 "main st".data
      { value := exampleStored, expires := 10 } (by decide) (by decide)).2.2.2 12⟩

/-- C1 counterexample: on a concrete successful upstream call the returned
source is "google", not "upstream" as the claim states. -/
theorem geocode_source_not_upstream :
    (Service.Geocode exampleService (newCache 1800) 0 "1 infinite loop".data
      (UpstreamOutcome.response 200 (some examplePayload))).err = none ∧
    (Service.Geocode exampleService (newCache 1800) 0 "1 infinite loop".data
      (UpstreamOutcome.response 200 (some examplePayload))).result.source = "google".data ∧
    (Service.Geocode exampleService (newCache 1800) 0 "1 infinite loop".data
      (UpstreamOutcome.response 200 (some examplePayload))).result.source ≠
      "upstream".data := by
  refine ⟨?_, ?_, ?_⟩ <;> decide

/-- C1 (amended): on "OK" with at least one result and a cache miss,
Geocode builds its Result from the first result only, stores it in the
cache keyed by the normalized address with expiry now + TTL, and returns it
with source "google". -/
theorem geocode_upstream_success (s : Service) (c : cache) (now : Nat) (a : GoString)
    (p : geocodeResponse) (top : GeoResult) (rest : List GeoResult)
    (hne : normalizeAddress a ≠ [])
    (hmiss : c.items (normalizeAddress a) = none)
    (hstatus : p.status = "OK".data)
    (hres : p.results = top :: rest) :
    Service.Geocode s c now a (UpstreamOutcome.response 200 (some p)) =
      { result := { address := top.formatted_address,
                    latitude := top.geometry.location.lat,
                    longitude := top.geometry.location.lng,
                    source := "google".data },
        err := none,
        cacheOut := c.Set now (normalizeAddress a)
          { address := top.formatted_address,
            latitude := top.geometry.location.lat,
            longitude := top.geometry.location.lng,
            source := "google".data },
        upstreamCalls := 1, cacheLookups := 1 } ∧
    (c.Set now (normalizeAddress a)
        { address := top.formatted_address,
          latitude := top.geometry.location.lat,
          longitude := top.geometry.location.lng,
          source := "google".data }).items (normalizeAddress a) =
      some { value := { address := top.formatted_address,
                        latitude := top.geometry.location.lat,
                        longitude := top.geometry.location.lng,
                        source := "google".data },
             expires := now + c.ttl } := by
  refine ⟨?_, cache.Set_items_self _ _ _ _⟩
  unfold Service.Geocode
  rw [if_neg hne, cache.Get_none hmiss]
  simp [hstatus, hres]

/-- C1 (amended) witness: the success path at a concrete input. -/
theorem geocode_upstream_success_witness :
    Service.Geocode exampleService (newCache 1800) 0 "1 infinite loop".data
        (UpstreamOutcome.response 200 (some examplePayload)) =
      { result := { address := exampleTop.formatted_address,
                    latitude := exampleTop.geometry.location.lat,
                    longitude := exampleTop.geometry.location.lng,
                    source := "google".data },
        err := none,
        cacheOut := (newCache 1800).Set 0 (normalizeAddress "1 infinite loop".data)
          { address := exampleTop.formatted_address,
            latitude := exampleTop.geometry.location.lat,
            longitude := exampleTop.geometry.location.lng,
            source := "google".data },
        upstreamCalls := 1, cacheLookups := 1 } ∧
    ((newCache 1800).Set 0 (normalizeAddress "1 infinite loop".data)
        { address := exampleTop.formatted_address,
          latitude := exampleTop.geometry.location.lat,
          longitude := exampleTop.geometry.location.lng,
          source := "google".data }).items (normalizeAddress "1 infinite loop".data) =
      some { value := { address := exampleTop.formatted_address,
                        latitude := exampleTop.geometry.location.lat,
                        longitude := exampleTop.geometry.location.lng,
                        source := "google".data },
             expires := 0 + (newCache 1800).ttl } :=
  geocode_upstream_success exampleService (newCache 1800) 0 "1 infinite loop".data
    examplePayload exampleTop [] (by decide) rfl rfl rfl

/-- C7: an "OK" response with an empty result list yields the NoResults
error, writes nothing to the cache, and a repeated call consumes a fresh
upstream request again. -/
theorem geocode_no_results (s : Service) (c : cache) (now now2 : Nat) (a : GoString)
    (p : geocodeResponse)
    (hne : normalizeAddress a ≠ [])
    (hmiss : c.items (normalizeAddress a) = none)
    (hstatus : p.status = "OK".data)
    (hempty : p.results = []) :
    Service.Geocode s c now a (UpstreamOutcome.response 200 (some p)) =
      { result := Result.zero, err := some GoError.noResults,
        cacheOut := c, upstreamCalls := 1, cacheLookups := 1 } ∧
    (Service.Geocode s
        (Service.Geocode s c now a (UpstreamOutcome.response 200 (some p))).cacheOut
        now2 a (UpstreamOutcome.response 200 (some p))).upstreamCalls = 1 := by
  have main : ∀ n : Nat,
      Service.Geocode s c n a (UpstreamOutcome.response 200 (some p)) =
        { result := Result.zero, err := some GoError.noResults,
          cacheOut := c, upstreamCalls := 1, cacheLookups := 1 } := by
    intro n
    unfold Service.Geocode
    rw [if_neg hne, cache.Get_none hmiss]
    simp [hstatus, hempty]
  constructor
  · exact main now
  · rw [main now]
    show (Service.Geocode s c now2 a
      (UpstreamOutcome.response 200 (some p))).upstreamCalls = 1
    rw [main now2]

/-- C7 witness: the zero-result path at a concrete input, twice. -/
theorem geocode_no_results_witness :
    Service.Geocode exampleService (newCache 1800) 0 "nowhere".data
        (UpstreamOutcome.response 200 (some exampleEmptyPayload)) =
      { result := Result.zero, err := some GoError.noResults,
        cacheOut := newCache 1800, upstreamCalls := 1, cacheLookups := 1 } ∧
    (Service.Geocode exampleService
        (Service.Geocode exampleService (newCache 1800) 0 "nowhere".data
          (UpstreamOutcome.response 200 (some exampleEmptyPayload))).cacheOut
        7 "nowhere".data
        (UpstreamOutcome.response 200 (some exampleEmptyPayload))).upstreamCalls = 1 :=
  geocode_no_results exampleService (newCache 1800) 0 7 "nowhere".data
    exampleEmptyPayload (by decide) rfl rfl rfl

/-- C8: each non-success upstream outcome (network failure, non-200 status,
malformed payload, non-"OK" provider status) fails with an error of the
generic upstream class — carrying the embedded error message if present,
else the raw status string, in the non-"OK" case — and writes nothing to
the cache. -/
theorem geocode_upstream_failures (s : Service) (c : cache) (now : Nat) (a : GoString)
    (hne : normalizeAddress a ≠ [])
    (hmiss : c.items (normalizeAddress a) = none) :
    (∀ m : GoString,
      Service.Geocode s c now a (UpstreamOutcome.doErr (TransportErr.netFailure m)) =
        { result := Result.zero,
          err := some (GoError.transport (TransportErr.netFailure m)),
          cacheOut := c, upstreamCalls := 1, cacheLookups := 1 } ∧
      isGenericUpstream (GoError.transport (TransportErr.netFailure m)) = true) ∧
    (∀ (code : Nat) (body : Option geocodeResponse), code ≠ 200 →
      Service.Geocode s c now a (UpstreamOutcome.response code body) =
        { result := Result.zero, err := some (GoError.httpStatus code),
          cacheOut := c, upstreamCalls := 1, cacheLookups := 1 } ∧
      isGenericUpstream (GoError.httpStatus code) = true) ∧
    (Service.Geocode s c now a (UpstreamOutcome.response 200 none) =
        { result := Result.zero, err := some GoError.decodeErr,
          cacheOut := c, upstreamCalls := 1, cacheLookups := 1 } ∧
      isGenericUpstream GoError.decodeErr = true) ∧
    (∀ p : geocodeResponse, p.status ≠ "OK".data →
      Service.Geocode s c now a (UpstreamOutcome.response 200 (some p)) =
        { result := Result.zero,
          err := some (if p.error_message ≠ [] then GoError.apiError p.error_message
            else GoError.apiStatus p.status),
          cacheOut := c, upstreamCalls := 1, cacheLookups := 1 } ∧
      (isGenericUpstream (GoError.apiError p.error_message) = true ∧
        isGenericUpstream (GoError.apiStatus p.status) = true)) := by
  refine ⟨?_, ?_, ?_, ?_⟩
  · intro m
    refine ⟨?_, rfl⟩
    unfold Service.Geocode
    rw [if_neg hne, cache.Get_none hmiss]
  · intro code body hcode
    refine ⟨?_, rfl⟩
    unfold Service.Geocode
    rw [if_neg hne, cache.Get_none hmiss]
    simp [hcode]
  · refine ⟨?_, rfl⟩
    unfold Service.Geocode
    rw [if_neg hne, cache.Get_none hmiss]
    rfl
  · intro p hst
    refine ⟨?_, rfl, rfl⟩
    unfold Service.Geocode
    rw [if_neg hne, cache.Get_none hmiss]
    by_cases hm : p.error_message = []
    · simp [hst, hm]
    · simp [hst, hm]

/-- C8 witness: the non-"OK" provider-status path at a concrete input with
an embedded error message. -/
theorem geocode_upstream_failures_witness :
    (Service.Geocode exampleService (newCache 1800) 0 "main st".data
        (UpstreamOutcome.response 200 (some exampleDeniedPayload)) =
      { result := Result.zero,
        err := some (if exampleDeniedPayload.error_message ≠ [] then
            GoError.apiError exampleDeniedPayload.error_message
          else GoError.apiStatus exampleDeniedPayload.status),
        cacheOut := newCache 1800, upstreamCalls := 1, cacheLookups := 1 } ∧
    (isGenericUpstream (GoError.apiError exampleDeniedPayload.error_message) = true ∧
      isGenericUpstream (GoError.apiStatus exampleDeniedPayload.status) = true)) :=
  (geocode_upstream_failures exampleService (newCache 1800) 0 "main st".data
    (by decide) rfl).2.2.2 exampleDeniedPayload (by decide)

/-- C9: a context-canceled or deadline-exceeded upstream call makes Geocode
return the transport error wrapping the context error — recognised by the
router's Timeout/Canceled classification, not by the generic upstream
class — and every Geocode invocation issues at most one upstream request. -/
theorem geocode_timeout_canceled (s : Service) (c : cache) (now : Nat) (a : GoString)
    (hne : normalizeAddress a ≠ [])
    (hmiss : c.items (normalizeAddress a) = none) :
    (Service.Geocode s c now a (UpstreamOutcome.doErr TransportErr.deadlineExceeded) =
      { result := Result.zero,
        err := some (GoError.transport TransportErr.deadlineExceeded),
        cacheOut := c, upstreamCalls := 1, cacheLookups := 1 } ∧
     Service.Geocode s c now a (UpstreamOutcome.doErr TransportErr.canceled) =
      { result := Result.zero,
        err := some (GoError.transport TransportErr.canceled),
        cacheOut := c, upstreamCalls := 1, cacheLookups := 1 }) ∧
    (isTimeoutOrCanceled (GoError.transport TransportErr.deadlineExceeded) = true ∧
     isTimeoutOrCanceled (GoError.transport TransportErr.canceled) = true ∧
     isGenericUpstream (GoError.transport TransportErr.deadlineExceeded) = false ∧
     isGenericUpstream (GoError.transport TransportErr.canceled) = false) ∧
    (∀ (s2 : Service) (c2 : cache) (n2 : Nat) (a2 : GoString) (u2 : UpstreamOutcome),
      (Service.Geocode s2 c2 n2 a2 u2).upstreamCalls ≤ 1) := by
  refine ⟨⟨?_, ?_⟩, by decide, ?_⟩
  · unfold Service.Geocode
    rw [if_neg hne, cache.Get_none hmiss]
  · unfold Service.Geocode
    rw [if_neg hne, cache.Get_none hmiss]
  · intro s2 c2 n2 a2 u2
    unfold Service.Geocode
    repeat' split
    all_goals simp

/-- C9 witness: both context-error kinds at a concrete input. -/
theorem geocode_timeout_canceled_witness :
    Service.Geocode exampleService (newCache 1800) 0 "main st".data
        (UpstreamOutcome.doErr TransportErr.deadlineExceeded) =
      { result := Result.zero,
        err := some (GoError.transport TransportErr.deadlineExceeded),
        cacheOut := newCache 1800, upstreamCalls := 1, cacheLookups := 1 } ∧
    Service.Geocode exampleService (newCache 1800) 0 "main st".data
        (UpstreamOutcome.doErr TransportErr.canceled) =
      { result := Result.zero,
        err := some (GoError.transport TransportErr.canceled),
        cacheOut := newCache 1800, upstreamCalls := 1, cacheLookups := 1 } :=
  (geocode_timeout_canceled exampleService (newCache 1800) 0 "main st".data
    (by decide) rfl).1

/-- C10: whenever Geocode returns an error, the Result returned alongside
it is the zero value. -/
theorem geocode_zero_result_on_error (s : Service) (c : cache) (now : Nat)
    (a : GoString) (u : UpstreamOutcome) (e : GoError)
    (h : (Service.Geocode s c now a u).err = some e) :
    (Service.Geocode s c now a u).result = Result.zero := by
  have key : (Service.Geocode s c now a u).err = none ∨
      (Service.Geocode s c now a u).result = Result.zero := by
    unfold Service.Geocode
    repeat' split
    all_goals first
      | exact Or.inl rfl
      | exact Or.inr rfl
  rcases key with hk | hk
  · rw [hk] at h
    simp at h
  · exact hk

/-- C10 witness: the transport-error path returns the zero Result. -/
theorem geocode_zero_result_on_error_witness :
    (Service.Geocode exampleService (newCache 1800) 0 "main st".data
      (UpstreamOutcome.doErr TransportErr.canceled)).result = Result.zero :=
  geocode_zero_result_on_error exampleService (newCache 1800) 0 "main st".data
    (UpstreamOutcome.doErr TransportErr.canceled)
    (GoError.transport TransportErr.canceled) (by decide)

end Apigo
